import Mathlib

/-!
Verification of the multi-network posting API
(`src/.github/workflows/brothel_hacker_platform_adapters_multi_network_api.js`).

Shallow embedding conventions:
* JavaScript exceptions thrown by `err(m, status)` are modelled by the
  result constructor `PResult.fail ⟨m, status⟩`; a thrown error aborts the
  rest of the function, which the embedding renders by short-circuiting
  matches.
* HTTP calls made through `http.post`/`axios` are not executed; instead each
  adapter receives a network oracle `Net : String → NetResult` mapping an
  endpoint description to the outcome the external service would produce,
  and every adapter records the list of endpoints it actually called in
  `AdapterRun.calls` (so "no network I/O was attempted" is `calls = []`).
* JavaScript objects `tokens` / `account` are association lists from key to
  string value; JS truthiness (`!o?.[k]`) makes an absent key and an empty
  string both count as missing.
* ISO timestamp strings are modelled by their epoch-milliseconds value as an
  `Int` (`new Date(s).getTime()`); `Date.toISOString()` results that are only
  stored, never compared, are carried as the same `Int`.
-/

/-- Error object produced by the source helper `err(m, status=400)`:
a message plus a numeric status. -/
structure ErrObj where
  message : String
  status : Nat
deriving DecidableEq, Repr

/-- Outcome of one external HTTP call, decided by the network oracle. -/
inductive NetResult where
  | success (payload : String)
  | failure (e : ErrObj)

/-- Network oracle: what the external service at a given endpoint would do. -/
def Net : Type := String → NetResult

/-- Result of an adapter invocation: success payload or a thrown error. -/
inductive PResult where
  | ok (payload : String)
  | fail (e : ErrObj)
deriving DecidableEq, Repr

/-- One adapter invocation: the endpoints actually called, in order, and the
final result. -/
structure AdapterRun where
  calls : List String
  result : PResult
deriving DecidableEq, Repr

/-- Normalized adapter input
`{text, mediaUrl?, linkUrl?, alt?, hashtags?, tokens:{...}, account:{...}}`
plus the extra fields some adapters read (`title`, `to`, `recipients`). -/
structure AdapterInput where
  text : Option String := none
  mediaUrl : Option String := none
  linkUrl : Option String := none
  alt : Option String := none
  title : Option String := none
  /-- the source field `to` (renamed: `to` is reserved in Lean) -/
  toField : Option String := none
  recipients : Option (List String) := none
  tokens : List (String × String) := []
  account : List (String × String) := []
deriving DecidableEq, Repr

/-- Key lookup in an association list, mirroring JS object property access
`o[k]` (first binding wins). -/
def lookupKey {α : Type} (l : List (String × α)) (k : String) : Option α :=
  match l with
  | [] => none
  | (k', v) :: rest => if k' = k then some v else lookupKey rest k

/-- JS truthiness for an optional string: `undefined` and `''` are falsy. -/
def truthy (v : Option String) : Option String :=
  match v with
  | none => none
  | some s => if s = "" then none else some s

/-- Truthy lookup `o?.[k]`: the key must be present with a truthy value. -/
def truthyLookup (l : List (String × String)) (k : String) : Option String :=
  truthy (lookupKey l k)

/-- Source helper `reqd(o,k)`: returns `o[k]` when truthy, otherwise throws
`missing_<k>` with the default status 400. -/
def reqd (o : List (String × String)) (k : String) : PResult :=
  match truthyLookup o k with
  | some v => .ok v
  | none => .fail ⟨"missing_" ++ k, 400⟩

/-- `reqd(input, k)` applied to a top-level optional field of the input
(the source uses this for `mediaUrl` and `to`). -/
def reqdField (v : Option String) (k : String) : PResult :=
  match truthy v with
  | some s => .ok s
  | none => .fail ⟨"missing_" ++ k, 400⟩

/-- One network call: consult the oracle, return payload or propagate the
upstream failure. -/
def netCall (net : Net) (endpoint : String) (callsSoFar : List String) : AdapterRun :=
  match net endpoint with
  | .success payload => ⟨callsSoFar ++ [endpoint], .ok payload⟩
  | .failure e => ⟨callsSoFar ++ [endpoint], .fail e⟩

/-- INSTAGRAM: requires `tokens.IG_TOKEN`, `account.ig_user_id`, a truthy
`mediaUrl`; two Graph API calls (create container, then publish). -/
def instagramPost (net : Net) (input : AdapterInput) : AdapterRun :=
  match reqd input.tokens "IG_TOKEN" with
  | .fail e => ⟨[], .fail e⟩
  | .ok _access_token =>
  match reqd input.account "ig_user_id" with
  | .fail e => ⟨[], .fail e⟩
  | .ok ig_user_id =>
  match truthy input.mediaUrl with
  | none => ⟨[], .fail ⟨"instagram_requires_mediaUrl", 400⟩⟩
  | some _mediaUrl =>
    let ep1 := "graph.facebook.com/v19.0/" ++ ig_user_id ++ "/media"
    match net ep1 with
    | .failure e => ⟨[ep1], .fail e⟩
    | .success _media =>
      let ep2 := "graph.facebook.com/v19.0/" ++ ig_user_id ++ "/media_publish"
      match net ep2 with
      | .failure e => ⟨[ep1, ep2], .fail e⟩
      | .success pub => ⟨[ep1, ep2], .ok pub⟩

/-- FACEBOOK PAGE: requires `tokens.FB_PAGE_TOKEN`, `account.page_id`;
posts a photo when `mediaUrl` is truthy, a feed message otherwise. -/
def facebookPost (net : Net) (input : AdapterInput) : AdapterRun :=
  match reqd input.tokens "FB_PAGE_TOKEN" with
  | .fail e => ⟨[], .fail e⟩
  | .ok _token =>
  match reqd input.account "page_id" with
  | .fail e => ⟨[], .fail e⟩
  | .ok page_id =>
  match truthy input.mediaUrl with
  | some _ => netCall net ("graph.facebook.com/v19.0/" ++ page_id ++ "/photos") []
  | none => netCall net ("graph.facebook.com/v19.0/" ++ page_id ++ "/feed") []

/-- TWITTER / X: requires `tokens.X_BEARER`; one call to the v2 tweets API. -/
def twitterPost (net : Net) (input : AdapterInput) : AdapterRun :=
  match reqd input.tokens "X_BEARER" with
  | .fail e => ⟨[], .fail e⟩
  | .ok _bearer => netCall net "api.twitter.com/2/tweets" []

/-- TIKTOK Business: requires `tokens.TT_ACCESS_TOKEN`,
`account.advertiser_id`, and `reqd(input,'mediaUrl')` (evaluated while
building the request body, hence before the call). -/
def tiktokPost (net : Net) (input : AdapterInput) : AdapterRun :=
  match reqd input.tokens "TT_ACCESS_TOKEN" with
  | .fail e => ⟨[], .fail e⟩
  | .ok _token =>
  match reqd input.account "advertiser_id" with
  | .fail e => ⟨[], .fail e⟩
  | .ok _advertiser_id =>
  match reqdField input.mediaUrl "mediaUrl" with
  | .fail e => ⟨[], .fail e⟩
  | .ok _video_url =>
    netCall net "business-api.tiktok.com/open_api/v1.3/file/video/ad/upload/" []

/-- LINKEDIN: requires `tokens.LI_TOKEN`, `account.author_urn`; one UGC post. -/
def linkedinPost (net : Net) (input : AdapterInput) : AdapterRun :=
  match reqd input.tokens "LI_TOKEN" with
  | .fail e => ⟨[], .fail e⟩
  | .ok _token =>
  match reqd input.account "author_urn" with
  | .fail e => ⟨[], .fail e⟩
  | .ok _urn => netCall net "api.linkedin.com/v2/ugcPosts" []

/-- SNAPCHAT stub: always throws with status 501, no network. -/
def snapchatPost (_net : Net) (_input : AdapterInput) : AdapterRun :=
  ⟨[], .fail ⟨"snapchat_posting_requires_marketing_api_and_creatives", 501⟩⟩

/-- PINTEREST: requires `tokens.PIN_TOKEN`, `account.board_id`, and
`reqd(input,'mediaUrl')` (evaluated in the request body, before the call). -/
def pinterestPost (net : Net) (input : AdapterInput) : AdapterRun :=
  match reqd input.tokens "PIN_TOKEN" with
  | .fail e => ⟨[], .fail e⟩
  | .ok _token =>
  match reqd input.account "board_id" with
  | .fail e => ⟨[], .fail e⟩
  | .ok _board_id =>
  match reqdField input.mediaUrl "mediaUrl" with
  | .fail e => ⟨[], .fail e⟩
  | .ok _url => netCall net "api.pinterest.com/v5/pins" []

/-- REDDIT: requires `tokens.REDDIT_TOKEN`, `account.subreddit`; one call. -/
def redditPost (net : Net) (input : AdapterInput) : AdapterRun :=
  match reqd input.tokens "REDDIT_TOKEN" with
  | .fail e => ⟨[], .fail e⟩
  | .ok _token =>
  match reqd input.account "subreddit" with
  | .fail e => ⟨[], .fail e⟩
  | .ok _sr => netCall net "oauth.reddit.com/api/submit" []

/-- TUMBLR stub: always throws with status 501, no network. -/
def tumblrPost (_net : Net) (_input : AdapterInput) : AdapterRun :=
  ⟨[], .fail ⟨"tumblr_v2_posting_require_oauth1_flow", 501⟩⟩

/-- YOUTUBE stub: always throws with status 501, no network. -/
def youtubePost (_net : Net) (_input : AdapterInput) : AdapterRun :=
  ⟨[], .fail ⟨"use_resumable_upload_to_youtube_data_api_v3", 501⟩⟩

/-- WHATSAPP Business Cloud: requires `tokens.WAPP_TOKEN`,
`account.phone_number_id`, and `reqd(input,'to')`; one call. -/
def whatsappSend (net : Net) (input : AdapterInput) : AdapterRun :=
  match reqd input.tokens "WAPP_TOKEN" with
  | .fail e => ⟨[], .fail e⟩
  | .ok _token =>
  match reqd input.account "phone_number_id" with
  | .fail e => ⟨[], .fail e⟩
  | .ok phone_id =>
  match reqdField input.toField "to" with
  | .fail e => ⟨[], .fail e⟩
  | .ok _to =>
    netCall net ("graph.facebook.com/v19.0/" ++ phone_id ++ "/messages") []

/-- DISCORD webhook: requires `tokens.DISCORD_WEBHOOK` (the URL); one call. -/
def discordPost (net : Net) (input : AdapterInput) : AdapterRun :=
  match reqd input.tokens "DISCORD_WEBHOOK" with
  | .fail e => ⟨[], .fail e⟩
  | .ok url => netCall net url []

/-- TWITCH stub: always throws with status 501, no network. -/
def twitchPost (_net : Net) (_input : AdapterInput) : AdapterRun :=
  ⟨[], .fail ⟨"twitch_posting_not_supported; consider chat bot or channel points integration", 501⟩⟩

/-- CLUBHOUSE stub: always throws with status 501, no network. -/
def clubhousePost (_net : Net) (_input : AdapterInput) : AdapterRun :=
  ⟨[], .fail ⟨"no_public_api", 501⟩⟩

/-- VIMEO stub: always throws with status 501, no network. -/
def vimeoPost (_net : Net) (_input : AdapterInput) : AdapterRun :=
  ⟨[], .fail ⟨"use_vimeo_uploads_api_oauth2", 501⟩⟩

/-- MEDIUM: requires `tokens.MEDIUM_TOKEN`, `account.user_id`; one call. -/
def mediumPost (net : Net) (input : AdapterInput) : AdapterRun :=
  match reqd input.tokens "MEDIUM_TOKEN" with
  | .fail e => ⟨[], .fail e⟩
  | .ok _token =>
  match reqd input.account "user_id" with
  | .fail e => ⟨[], .fail e⟩
  | .ok userId => netCall net ("api.medium.com/v1/users/" ++ userId ++ "/posts") []

/-- QUORA stub: always throws with status 501, no network. -/
def quoraPost (_net : Net) (_input : AdapterInput) : AdapterRun :=
  ⟨[], .fail ⟨"no_public_content_api", 501⟩⟩

/-- ONLYFANS stub: always throws with status 501, no network. -/
def onlyfansPost (_net : Net) (_input : AdapterInput) : AdapterRun :=
  ⟨[], .fail ⟨"no_public_api_use_official_partner_or_manual_export", 501⟩⟩

/-- PORNHUB stub: always throws with status 501, no network. -/
def pornhubPost (_net : Net) (_input : AdapterInput) : AdapterRun :=
  ⟨[], .fail ⟨"partner_api_required", 501⟩⟩

/-- TELEGRAM bot: requires `tokens.TELEGRAM_BOT_TOKEN`, `account.chat_id`;
sends a photo when `mediaUrl` is truthy, a text message otherwise. -/
def telegramPost (net : Net) (input : AdapterInput) : AdapterRun :=
  match reqd input.tokens "TELEGRAM_BOT_TOKEN" with
  | .fail e => ⟨[], .fail e⟩
  | .ok token =>
  match reqd input.account "chat_id" with
  | .fail e => ⟨[], .fail e⟩
  | .ok _chat_id =>
  match truthy input.mediaUrl with
  | some _ => netCall net ("api.telegram.org/bot" ++ token ++ "/sendPhoto") []
  | none => netCall net ("api.telegram.org/bot" ++ token ++ "/sendMessage") []

/-- WECHAT stub: always throws with status 501, no network. -/
def wechatPost (_net : Net) (_input : AdapterInput) : AdapterRun :=
  ⟨[], .fail ⟨"requires_wechat_official_account_access_token_and_message_send_api", 501⟩⟩

/-- LINE Messaging API: requires `tokens.LINE_CHANNEL_TOKEN` and
`reqd(input,'to')`; one push call. -/
def linePost (net : Net) (input : AdapterInput) : AdapterRun :=
  match reqd input.tokens "LINE_CHANNEL_TOKEN" with
  | .fail e => ⟨[], .fail e⟩
  | .ok _token =>
  match reqdField input.toField "to" with
  | .fail e => ⟨[], .fail e⟩
  | .ok _to => netCall net "api.line.me/v2/bot/message/push" []

/-- VIBER bot: requires `tokens.VIBER_TOKEN`; one broadcast call. -/
def viberPost (net : Net) (input : AdapterInput) : AdapterRun :=
  match reqd input.tokens "VIBER_TOKEN" with
  | .fail e => ⟨[], .fail e⟩
  | .ok _token => netCall net "chatapi.viber.com/pa/broadcast_message" []

/-- The adapter registry, in source order. -/
def adapters : List (String × (Net → AdapterInput → AdapterRun)) :=
  [ ("instagram", instagramPost)
  , ("facebook", facebookPost)
  , ("twitter", twitterPost)
  , ("tiktok", tiktokPost)
  , ("linkedin", linkedinPost)
  , ("snapchat", snapchatPost)
  , ("pinterest", pinterestPost)
  , ("reddit", redditPost)
  , ("tumblr", tumblrPost)
  , ("youtube", youtubePost)
  , ("whatsapp", whatsappSend)
  , ("discord", discordPost)
  , ("twitch", twitchPost)
  , ("clubhouse", clubhousePost)
  , ("vimeo", vimeoPost)
  , ("medium", mediumPost)
  , ("quora", quoraPost)
  , ("onlyfans", onlyfansPost)
  , ("pornhub", pornhubPost)
  , ("telegram", telegramPost)
  , ("wechat", wechatPost)
  , ("line", linePost)
  , ("viber", viberPost) ]

/-- Static capability metadata, one record per platform. -/
structure CapabilityRecord where
  post : Bool
  media : Bool
  analytics : Bool
  notes : String
deriving DecidableEq, Repr

/-- Capability table, in source order. -/
def capabilities : List (String × CapabilityRecord) :=
  [ ("instagram", ⟨true, true, false, "Graph API media_publish (image/video)"⟩)
  , ("facebook", ⟨true, true, true, "Pages feed/photos"⟩)
  , ("twitter", ⟨true, false, false, "Requires user-context OAuth2; 280 chars"⟩)
  , ("tiktok", ⟨true, true, false, "Business Content Posting; advertiser scope"⟩)
  , ("linkedin", ⟨true, true, false, "UGC posts; needs author URN"⟩)
  , ("snapchat", ⟨false, true, false, "Ads only via Marketing API"⟩)
  , ("pinterest", ⟨true, true, false, "v5 Pins API"⟩)
  , ("reddit", ⟨true, true, false, "/api/submit OAuth"⟩)
  , ("tumblr", ⟨false, true, false, "OAuth1; implement if needed"⟩)
  , ("youtube", ⟨false, true, true, "Resumable uploads; Data API v3"⟩)
  , ("whatsapp", ⟨true, true, false, "Business Cloud API"⟩)
  , ("discord", ⟨true, true, false, "Webhooks or bot"⟩)
  , ("twitch", ⟨false, false, true, "Use chat bot/Helix for markers"⟩)
  , ("clubhouse", ⟨false, false, false, "No public API"⟩)
  , ("vimeo", ⟨false, true, true, "Uploads via OAuth2"⟩)
  , ("medium", ⟨true, false, false, "Markdown posts"⟩)
  , ("quora", ⟨false, false, false, "No public content API"⟩)
  , ("onlyfans", ⟨false, true, false, "Partner/official only"⟩)
  , ("pornhub", ⟨false, true, false, "Partner API only"⟩)
  , ("telegram", ⟨true, true, false, "Bot API"⟩)
  , ("wechat", ⟨false, true, false, "Official Account API"⟩)
  , ("line", ⟨true, true, false, "Messaging API"⟩)
  , ("viber", ⟨true, false, false, "Public Accounts API"⟩) ]

/-- Dispatch facade `postToPlatform(platform, input)`: look up the adapter,
throw `unsupported_platform` with status 404 when absent, else invoke it. -/
def postToPlatform (net : Net) (platform : String) (input : AdapterInput) : AdapterRun :=
  match lookupKey adapters platform with
  | none => ⟨[], .fail ⟨"unsupported_platform", 404⟩⟩
  | some fn => fn net input

/-- One proposed post inside an approval submission (zod `ApprovalItem`):
`platform` any string, `kind` one of post/story/ad/reel, `text` non-empty,
`mediaUrls` an optional array of URL strings. -/
structure ApprovalItem where
  platform : String
  kind : String
  text : String
  mediaUrls : Option (List String) := none
deriving DecidableEq, Repr

/-- One recorded decision slot value
`{decision ∈ {APPROVED, REJECTED}, note?, ts}`. -/
structure Decision where
  decision : String
  note : Option String
  ts : Int
deriving DecidableEq, Repr

/-- An approval record as created by `/api/approval/submit` and mutated by
`/api/approval/:id/decision`. `decisions` is the JS sparse array: `none` is
a hole (a slot JS reads as `undefined`). -/
structure ApprovalRecord where
  id : String
  status : String
  policy : String
  items : List ApprovalItem
  decisions : List (Option Decision)
  createdAt : Int
deriving DecidableEq, Repr

/-- The allowed values of `kind` (zod `z.enum(['post','story','ad','reel'])`). -/
def validKinds : List String := ["post", "story", "ad", "reel"]

/-- zod validation of a single `ApprovalItem`: `kind` in the enum,
`text` with `.min(1)`, and every `mediaUrls` entry a valid URL, where URL
validity is delegated to the external zod validator `urlOk`. -/
def validItem (urlOk : String → Bool) (it : ApprovalItem) : Bool :=
  validKinds.contains it.kind && it.text.length != 0 &&
    (match it.mediaUrls with
     | none => true
     | some us => us.all urlOk)

/-- Request body of `/api/approval/submit`:
`{ items: array(ApprovalItem), policy: string default 'generic' }`.
Note the `items` array has no minimum-length constraint. -/
structure SubmitBody where
  items : List ApprovalItem
  policy : Option String
deriving DecidableEq, Repr

/-- Response of the submit endpoint: the stored record, or a zod 400. -/
inductive SubmitOut where
  | ok (record : ApprovalRecord)
  | badRequest
deriving DecidableEq, Repr

/-- `/api/approval/submit`: validate the body with zod, then store
`{ id, status:'PENDING', policy, items, decisions:[], createdAt }`. -/
def approvalSubmit (urlOk : String → Bool) (body : SubmitBody) (id : String)
    (createdAt : Int) : SubmitOut :=
  if body.items.all (validItem urlOk) then
    .ok ⟨id, "PENDING", body.policy.getD "generic", body.items, [], createdAt⟩
  else
    .badRequest

/-- JS sparse-array assignment `a[i] = v`: inside the current length it
replaces the slot; beyond it, the array grows with holes up to `i`. -/
def setSparse {α : Type} (l : List (Option α)) (i : Nat) (v : α) : List (Option α) :=
  if i < l.length then
    l.set i (some v)
  else
    l ++ List.replicate (i - l.length) none ++ [some v]

/-- `decisions.includes(undefined)`: JS `includes` reads holes as
`undefined`, so this is true exactly when some slot is a hole. -/
def includesUndefined {α : Type} (l : List (Option α)) : Bool :=
  l.any (fun s => s.isNone)

/-- Core mutation of the decision endpoint:
`r.decisions[index] = {decision, note, ts}` followed by
`r.status = r.decisions.includes(undefined) ? 'PENDING' : 'DECIDED'`. -/
def decideUpdate (r : ApprovalRecord) (index : Nat) (d : Decision) : ApprovalRecord :=
  let ds := setSparse r.decisions index d
  { r with
    decisions := ds
    status := if includesUndefined ds then "PENDING" else "DECIDED" }

/-- Request body of `/api/approval/:id/decision`:
`{ index: int nonnegative, decision ∈ {APPROVED, REJECTED}, note? }`. -/
structure DecisionBody where
  index : Int
  decision : String
  note : Option String
deriving DecidableEq, Repr

/-- Response of the decision endpoint. -/
inductive DecideOut where
  | ok (status : String) (record : ApprovalRecord)
  | notFound
  | badRequest
deriving DecidableEq, Repr

/-- `/api/approval/:id/decision`: 404 when the id is unknown, 400 when the
body fails zod, otherwise record the decision at `index` and recompute the
status. There is no bounds check of `index` against `items.length`. -/
def approvalDecision (found : Option ApprovalRecord) (body : DecisionBody)
    (now : Int) : DecideOut :=
  match found with
  | none => .notFound
  | some r =>
    if 0 ≤ body.index ∧ (body.decision = "APPROVED" ∨ body.decision = "REJECTED") then
      let r' := decideUpdate r body.index.toNat ⟨body.decision, body.note, now⟩
      .ok r'.status r'
    else
      .badRequest

/-- Fold a sequence of raw decision mutations over a record (the effect of a
sequence of successful decision calls). -/
def applyDecides (r : ApprovalRecord) (ds : List (Nat × Decision)) : ApprovalRecord :=
  ds.foldl (fun acc p => decideUpdate acc p.1 p.2) r

/-- A publish job as enqueued by `/api/post` or `/api/schedule/bulk`.
`whenISO` is carried as parsed epoch milliseconds. -/
structure Job where
  id : String
  platforms : List String
  text : String
  whenISO : Option Int := none
  mediaUrls : Option (List String) := none
  status : String
  error : Option String := none
  postedAt : Option Int := none
deriving DecidableEq, Repr

/-- Observable steps of one scheduler pass over one job. -/
inductive Event where
  | setStatus (s : String)
  | attempt (platform : String)
deriving DecidableEq, Repr

/-- Due-ness test of the tick:
`!job.whenISO || new Date(job.whenISO).getTime() <= now`. -/
def dueAt (now : Int) (j : Job) : Bool :=
  match j.whenISO with
  | none => true
  | some t => t ≤ now

/-- The normalized input the tick builds for every platform of a job:
`{ text: job.text, mediaUrl: job.mediaUrls?.[0], tokens: {}, account: {} }`. -/
def jobPayload (j : Job) : AdapterInput :=
  { text := some j.text
    mediaUrl := (j.mediaUrls.getD []).head?
    tokens := []
    account := [] }

/-- `platform.toLowerCase()` as character-wise lowering (an executable
rendering of JS `toLowerCase`, which the tick applies to each platform
identifier before dispatch). -/
def jsToLower (s : String) : String := String.mk (s.data.map Char.toLower)

/-- The per-platform fan-out loop
`for (const platform of job.platforms) await postToPlatform(...)` inside the
tick's `try`: platforms are attempted in order and the first thrown error
aborts the loop. Returns the attempted platforms and the first error. -/
def fanOut (net : Net) (input : AdapterInput) (platforms : List String) :
    List String × Option ErrObj :=
  match platforms with
  | [] => ([], none)
  | p :: rest =>
    match (postToPlatform net (jsToLower p) input).result with
    | .fail e => ([p], some e)
    | .ok _ =>
      let r := fanOut net input rest
      (p :: r.1, r.2)

/-- One scheduler pass over a single job: skip unless `status === 'QUEUED'`,
skip unless due; otherwise set `POSTING`, fan out, and finish in `POSTED`
(stamping `postedAt`) or `FAILED` (stamping `error`). The second component
is the trace of observable steps. -/
def processJob (net : Net) (now : Int) (j : Job) : Job × List Event :=
  if j.status = "QUEUED" then
    if dueAt now j then
      let fo := fanOut net (jobPayload j) j.platforms
      match fo.2 with
      | none =>
        ({ j with status := "POSTED", postedAt := some now },
         Event.setStatus "POSTING" :: fo.1.map Event.attempt ++ [Event.setStatus "POSTED"])
      | some e =>
        ({ j with status := "FAILED", error := some e.message },
         Event.setStatus "POSTING" :: fo.1.map Event.attempt ++ [Event.setStatus "FAILED"])
    else
      (j, [])
  else
    (j, [])

/-- One cron tick: every job of the schedule list is processed in order. -/
def tick (net : Net) (now : Int) (jobs : List Job) : List Job × List (List Event) :=
  match jobs with
  | [] => ([], [])
  | j :: rest =>
    let p := processJob net now j
    let t := tick net now rest
    (p.1 :: t.1, p.2 :: t.2)

/-- A sequence of ticks observed by one fixed job, each tick with its own
oracle and clock; collects the job's trace of every tick. -/
def runTicks (steps : List (Net × Int)) (j : Job) : Job × List (List Event) :=
  match steps with
  | [] => (j, [])
  | s :: rest =>
    let p := processJob s.1 s.2 j
    let t := runTicks rest p.1
    (t.1, p.2 :: t.2)

/-- How many ticks of a trace sequence entered POSTING. -/
def postingEntries (traces : List (List Event)) : Nat :=
  (traces.filter (fun t => Event.setStatus "POSTING" ∈ t)).length

/-- A required key an adapter fetches through `reqd` before calling out:
either a `tokens` key, an `account` key, or one of the two top-level input
fields the source passes to `reqd` (`mediaUrl`, `to`). -/
inductive ReqKey where
  | tok (key : String)
  | acct (key : String)
  | fldMediaUrl
  | fldTo
deriving DecidableEq, Repr

/-- The key name as it appears in the thrown `missing_<name>` message. -/
def ReqKey.name : ReqKey → String
  | .tok n => n
  | .acct n => n
  | .fldMediaUrl => "mediaUrl"
  | .fldTo => "to"

/-- Whether a given required key is missing (JS-falsy) from an input. -/
def keyMissing (input : AdapterInput) : ReqKey → Bool
  | .tok n => (truthyLookup input.tokens n).isNone
  | .acct n => (truthyLookup input.account n).isNone
  | .fldMediaUrl => (truthy input.mediaUrl).isNone
  | .fldTo => (truthy input.toField).isNone

/-- The `reqd`-declared required keys of every credentialed adapter, in the
order the source checks them. -/
def requiredKeys : List (String × List ReqKey) :=
  [ ("instagram", [.tok "IG_TOKEN", .acct "ig_user_id"])
  , ("facebook", [.tok "FB_PAGE_TOKEN", .acct "page_id"])
  , ("twitter", [.tok "X_BEARER"])
  , ("tiktok", [.tok "TT_ACCESS_TOKEN", .acct "advertiser_id", .fldMediaUrl])
  , ("linkedin", [.tok "LI_TOKEN", .acct "author_urn"])
  , ("pinterest", [.tok "PIN_TOKEN", .acct "board_id", .fldMediaUrl])
  , ("reddit", [.tok "REDDIT_TOKEN", .acct "subreddit"])
  , ("whatsapp", [.tok "WAPP_TOKEN", .acct "phone_number_id", .fldTo])
  , ("discord", [.tok "DISCORD_WEBHOOK"])
  , ("medium", [.tok "MEDIUM_TOKEN", .acct "user_id"])
  , ("telegram", [.tok "TELEGRAM_BOT_TOKEN", .acct "chat_id"])
  , ("line", [.tok "LINE_CHANNEL_TOKEN", .fldTo])
  , ("viber", [.tok "VIBER_TOKEN"]) ]

/-- The platform identifiers whose capability record has `post:false`. -/
def postFalseKeys : List String :=
  (capabilities.filter (fun pc => !pc.2.post)).map Prod.fst

/-- A URL validator accepting everything (stand-in for zod `.url()` when URL
validity is irrelevant to the statement at hand). -/
def urlTrue : String → Bool := fun _ => true

/-- A network oracle under which every external call would succeed. -/
def allSuccessNet : Net := fun _ => .success "ok"

/-- A well-formed one-item submission payload item. -/
def demoItem : ApprovalItem := { platform := "x", kind := "post", text := "hi" }

/-- A stored approval record with two items and no decisions yet. -/
def rec2Items : ApprovalRecord :=
  ⟨"appr_demo2", "PENDING", "generic", [demoItem, demoItem], [], 0⟩

/-- A stored approval record with one item and no decisions yet. -/
def rec1Item : ApprovalRecord :=
  ⟨"appr_demo1", "PENDING", "generic", [demoItem], [], 0⟩

/-- A queued job fanning out to snapchat then discord, schedulable at once. -/
def snapJob : Job :=
  { id := "job_demo", platforms := ["snapchat", "discord"], text := "hi",
    status := "QUEUED" }

/-- A job already in its POSTED terminal state. -/
def postedJob : Job :=
  { id := "job_done", platforms := ["telegram"], text := "hi",
    status := "POSTED", postedAt := some 0 }

/-- A queued job whose scheduled time is in the future of clock 100. -/
def futureJob : Job :=
  { id := "job_future", platforms := ["telegram"], text := "hi",
    whenISO := some 500, status := "QUEUED" }

/-- An approval decision used by concrete instantiations. -/
def demoDecision : Decision := { decision := "APPROVED", note := none, ts := 1 }

theorem setSparse_length {α : Type} (l : List (Option α)) (i : Nat) (v : α) :
    (setSparse l i v).length = max l.length (i + 1) := by
  unfold setSparse
  by_cases h : i < l.length
  · rw [if_pos h, List.length_set, Nat.max_eq_left (by omega)]
  · rw [if_neg h]
    simp only [List.length_append, List.length_replicate, List.length_cons,
      List.length_nil]
    omega

theorem setSparse_ne_nil {α : Type} (l : List (Option α)) (i : Nat) (v : α) :
    setSparse l i v ≠ [] := by
  have h : (setSparse l i v).length = max l.length (i + 1) := setSparse_length l i v
  intro hnil
  rw [hnil] at h
  simp only [List.length_nil] at h
  omega

theorem includesUndefined_eq {α : Type} (l : List (Option α)) :
    includesUndefined l = !l.all Option.isSome := by
  induction l with
  | nil => rfl
  | cons hd tl ih =>
      simp only [includesUndefined, List.any_cons, List.all_cons, Bool.not_and] at *
      rw [ih]
      cases hd <;> simp

theorem lookupKey_isSome_iff {α : Type} (l : List (String × α)) (p : String) :
    (lookupKey l p).isSome = true ↔ p ∈ l.map Prod.fst := by
  induction l with
  | nil => simp [lookupKey]
  | cons hd tl ih =>
      obtain ⟨k, v⟩ := hd
      by_cases h : k = p
      · subst h
        simp [lookupKey]
      · simp [lookupKey, h, ih, Ne.symm h]

theorem instagramPost_missing_key (net : Net) (input : AdapterInput)
    (h : ∃ k ∈ [ReqKey.tok "IG_TOKEN", ReqKey.acct "ig_user_id"], keyMissing input k = true) :
    (instagramPost net input).calls = [] ∧
      ∃ k ∈ [ReqKey.tok "IG_TOKEN", ReqKey.acct "ig_user_id"], keyMissing input k = true ∧
        (instagramPost net input).result = PResult.fail ⟨"missing_" ++ k.name, 400⟩ := by
  cases h1 : truthyLookup input.tokens "IG_TOKEN" with
  | none =>
      refine ⟨?_, ReqKey.tok "IG_TOKEN", ?_, ?_, ?_⟩ <;>
        simp [instagramPost, reqd, h1, keyMissing, ReqKey.name]
  | some v =>
      cases h2 : truthyLookup input.account "ig_user_id" with
      | none =>
          refine ⟨?_, ReqKey.acct "ig_user_id", ?_, ?_, ?_⟩ <;>
            simp [instagramPost, reqd, h1, h2, keyMissing, ReqKey.name]
      | some w =>
          exfalso
          rcases h with ⟨k, hk, hmiss⟩
          simp only [List.mem_cons, List.not_mem_nil, or_false] at hk
          rcases hk with rfl | rfl <;> simp [keyMissing, h1, h2] at hmiss

theorem facebookPost_missing_key (net : Net) (input : AdapterInput)
    (h : ∃ k ∈ [ReqKey.tok "FB_PAGE_TOKEN", ReqKey.acct "page_id"], keyMissing input k = true) :
    (facebookPost net input).calls = [] ∧
      ∃ k ∈ [ReqKey.tok "FB_PAGE_TOKEN", ReqKey.acct "page_id"], keyMissing input k = true ∧
        (facebookPost net input).result = PResult.fail ⟨"missing_" ++ k.name, 400⟩ := by
  cases h1 : truthyLookup input.tokens "FB_PAGE_TOKEN" with
  | none =>
      refine ⟨?_, ReqKey.tok "FB_PAGE_TOKEN", ?_, ?_, ?_⟩ <;>
        simp [facebookPost, reqd, h1, keyMissing, ReqKey.name]
  | some v =>
      cases h2 : truthyLookup input.account "page_id" with
      | none =>
          refine ⟨?_, ReqKey.acct "page_id", ?_, ?_, ?_⟩ <;>
            simp [facebookPost, reqd, h1, h2, keyMissing, ReqKey.name]
      | some w =>
          exfalso
          rcases h with ⟨k, hk, hmiss⟩
          simp only [List.mem_cons, List.not_mem_nil, or_false] at hk
          rcases hk with rfl | rfl <;> simp [keyMissing, h1, h2] at hmiss

theorem twitterPost_missing_key (net : Net) (input : AdapterInput)
    (h : ∃ k ∈ [ReqKey.tok "X_BEARER"], keyMissing input k = true) :
    (twitterPost net input).calls = [] ∧
      ∃ k ∈ [ReqKey.tok "X_BEARER"], keyMissing input k = true ∧
        (twitterPost net input).result = PResult.fail ⟨"missing_" ++ k.name, 400⟩ := by
  cases h1 : truthyLookup input.tokens "X_BEARER" with
  | none =>
      refine ⟨?_, ReqKey.tok "X_BEARER", ?_, ?_, ?_⟩ <;>
        simp [twitterPost, reqd, h1, keyMissing, ReqKey.name]
  | some v =>
      exfalso
      rcases h with ⟨k, hk, hmiss⟩
      simp only [List.mem_cons, List.not_mem_nil, or_false] at hk
      rcases hk with rfl
      simp [keyMissing, h1] at hmiss

theorem tiktokPost_missing_key (net : Net) (input : AdapterInput)
    (h : ∃ k ∈ [ReqKey.tok "TT_ACCESS_TOKEN", ReqKey.acct "advertiser_id", ReqKey.fldMediaUrl],
      keyMissing input k = true) :
    (tiktokPost net input).calls = [] ∧
      ∃ k ∈ [ReqKey.tok "TT_ACCESS_TOKEN", ReqKey.acct "advertiser_id", ReqKey.fldMediaUrl],
        keyMissing input k = true ∧
        (tiktokPost net input).result = PResult.fail ⟨"missing_" ++ k.name, 400⟩ := by
  cases h1 : truthyLookup input.tokens "TT_ACCESS_TOKEN" with
  | none =>
      refine ⟨?_, ReqKey.tok "TT_ACCESS_TOKEN", ?_, ?_, ?_⟩ <;>
        simp [tiktokPost, reqd, h1, keyMissing, ReqKey.name]
  | some v =>
      cases h2 : truthyLookup input.account "advertiser_id" with
      | none =>
          refine ⟨?_, ReqKey.acct "advertiser_id", ?_, ?_, ?_⟩ <;>
            simp [tiktokPost, reqd, h1, h2, keyMissing, ReqKey.name]
      | some w =>
          cases h3 : truthy input.mediaUrl with
          | none =>
              refine ⟨?_, ReqKey.fldMediaUrl, ?_, ?_, ?_⟩ <;>
                simp [tiktokPost, reqd, reqdField, h1, h2, h3, keyMissing, ReqKey.name]
          | some u =>
              exfalso
              rcases h with ⟨k, hk, hmiss⟩
              simp only [List.mem_cons, List.not_mem_nil, or_false] at hk
              rcases hk with rfl | rfl | rfl <;> simp [keyMissing, h1, h2, h3] at hmiss

theorem linkedinPost_missing_key (net : Net) (input : AdapterInput)
    (h : ∃ k ∈ [ReqKey.tok "LI_TOKEN", ReqKey.acct "author_urn"], keyMissing input k = true) :
    (linkedinPost net input).calls = [] ∧
      ∃ k ∈ [ReqKey.tok "LI_TOKEN", ReqKey.acct "author_urn"], keyMissing input k = true ∧
        (linkedinPost net input).result = PResult.fail ⟨"missing_" ++ k.name, 400⟩ := by
  cases h1 : truthyLookup input.tokens "LI_TOKEN" with
  | none =>
      refine ⟨?_, ReqKey.tok "LI_TOKEN", ?_, ?_, ?_⟩ <;>
        simp [linkedinPost, reqd, h1, keyMissing, ReqKey.name]
  | some v =>
      cases h2 : truthyLookup input.account "author_urn" with
      | none =>
          refine ⟨?_, ReqKey.acct "author_urn", ?_, ?_, ?_⟩ <;>
            simp [linkedinPost, reqd, h1, h2, keyMissing, ReqKey.name]
      | some w =>
          exfalso
          rcases h with ⟨k, hk, hmiss⟩
          simp only [List.mem_cons, List.not_mem_nil, or_false] at hk
          rcases hk with rfl | rfl <;> simp [keyMissing, h1, h2] at hmiss

theorem pinterestPost_missing_key (net : Net) (input : AdapterInput)
    (h : ∃ k ∈ [ReqKey.tok "PIN_TOKEN", ReqKey.acct "board_id", ReqKey.fldMediaUrl],
      keyMissing input k = true) :
    (pinterestPost net input).calls = [] ∧
      ∃ k ∈ [ReqKey.tok "PIN_TOKEN", ReqKey.acct "board_id", ReqKey.fldMediaUrl],
        keyMissing input k = true ∧
        (pinterestPost net input).result = PResult.fail ⟨"missing_" ++ k.name, 400⟩ := by
  cases h1 : truthyLookup input.tokens "PIN_TOKEN" with
  | none =>
      refine ⟨?_, ReqKey.tok "PIN_TOKEN", ?_, ?_, ?_⟩ <;>
        simp [pinterestPost, reqd, h1, keyMissing, ReqKey.name]
  | some v =>
      cases h2 : truthyLookup input.account "board_id" with
      | none =>
          refine ⟨?_, ReqKey.acct "board_id", ?_, ?_, ?_⟩ <;>
            simp [pinterestPost, reqd, h1, h2, keyMissing, ReqKey.name]
      | some w =>
          cases h3 : truthy input.mediaUrl with
          | none =>
              refine ⟨?_, ReqKey.fldMediaUrl, ?_, ?_, ?_⟩ <;>
                simp [pinterestPost, reqd, reqdField, h1, h2, h3, keyMissing, ReqKey.name]
          | some u =>
              exfalso
              rcases h with ⟨k, hk, hmiss⟩
              simp only [List.mem_cons, List.not_mem_nil, or_false] at hk
              rcases hk with rfl | rfl | rfl <;> simp [keyMissing, h1, h2, h3] at hmiss

theorem redditPost_missing_key (net : Net) (input : AdapterInput)
    (h : ∃ k ∈ [ReqKey.tok "REDDIT_TOKEN", ReqKey.acct "subreddit"], keyMissing input k = true) :
    (redditPost net input).calls = [] ∧
      ∃ k ∈ [ReqKey.tok "REDDIT_TOKEN", ReqKey.acct "subreddit"], keyMissing input k = true ∧
        (redditPost net input).result = PResult.fail ⟨"missing_" ++ k.name, 400⟩ := by
  cases h1 : truthyLookup input.tokens "REDDIT_TOKEN" with
  | none =>
      refine ⟨?_, ReqKey.tok "REDDIT_TOKEN", ?_, ?_, ?_⟩ <;>
        simp [redditPost, reqd, h1, keyMissing, ReqKey.name]
  | some v =>
      cases h2 : truthyLookup input.account "subreddit" with
      | none =>
          refine ⟨?_, ReqKey.acct "subreddit", ?_, ?_, ?_⟩ <;>
            simp [redditPost, reqd, h1, h2, keyMissing, ReqKey.name]
      | some w =>
          exfalso
          rcases h with ⟨k, hk, hmiss⟩
          simp only [List.mem_cons, List.not_mem_nil, or_false] at hk
          rcases hk with rfl | rfl <;> simp [keyMissing, h1, h2] at hmiss

theorem whatsappSend_missing_key (net : Net) (input : AdapterInput)
    (h : ∃ k ∈ [ReqKey.tok "WAPP_TOKEN", ReqKey.acct "phone_number_id", ReqKey.fldTo],
      keyMissing input k = true) :
    (whatsappSend net input).calls = [] ∧
      ∃ k ∈ [ReqKey.tok "WAPP_TOKEN", ReqKey.acct "phone_number_id", ReqKey.fldTo],
        keyMissing input k = true ∧
        (whatsappSend net input).result = PResult.fail ⟨"missing_" ++ k.name, 400⟩ := by
  cases h1 : truthyLookup input.tokens "WAPP_TOKEN" with
  | none =>
      refine ⟨?_, ReqKey.tok "WAPP_TOKEN", ?_, ?_, ?_⟩ <;>
        simp [whatsappSend, reqd, h1, keyMissing, ReqKey.name]
  | some v =>
      cases h2 : truthyLookup input.account "phone_number_id" with
      | none =>
          refine ⟨?_, ReqKey.acct "phone_number_id", ?_, ?_, ?_⟩ <;>
            simp [whatsappSend, reqd, h1, h2, keyMissing, ReqKey.name]
      | some w =>
          cases h3 : truthy input.toField with
          | none =>
              refine ⟨?_, ReqKey.fldTo, ?_, ?_, ?_⟩ <;>
                simp [whatsappSend, reqd, reqdField, h1, h2, h3, keyMissing, ReqKey.name]
          | some u =>
              exfalso
              rcases h with ⟨k, hk, hmiss⟩
              simp only [List.mem_cons, List.not_mem_nil, or_false] at hk
              rcases hk with rfl | rfl | rfl <;> simp [keyMissing, h1, h2, h3] at hmiss

theorem discordPost_missing_key (net : Net) (input : AdapterInput)
    (h : ∃ k ∈ [ReqKey.tok "DISCORD_WEBHOOK"], keyMissing input k = true) :
    (discordPost net input).calls = [] ∧
      ∃ k ∈ [ReqKey.tok "DISCORD_WEBHOOK"], keyMissing input k = true ∧
        (discordPost net input).result = PResult.fail ⟨"missing_" ++ k.name, 400⟩ := by
  cases h1 : truthyLookup input.tokens "DISCORD_WEBHOOK" with
  | none =>
      refine ⟨?_, ReqKey.tok "DISCORD_WEBHOOK", ?_, ?_, ?_⟩ <;>
        simp [discordPost, reqd, h1, keyMissing, ReqKey.name]
  | some v =>
      exfalso
      rcases h with ⟨k, hk, hmiss⟩
      simp only [List.mem_cons, List.not_mem_nil, or_false] at hk
      rcases hk with rfl
      simp [keyMissing, h1] at hmiss

theorem mediumPost_missing_key (net : Net) (input : AdapterInput)
    (h : ∃ k ∈ [ReqKey.tok "MEDIUM_TOKEN", ReqKey.acct "user_id"], keyMissing input k = true) :
    (mediumPost net input).calls = [] ∧
      ∃ k ∈ [ReqKey.tok "MEDIUM_TOKEN", ReqKey.acct "user_id"], keyMissing input k = true ∧
        (mediumPost net input).result = PResult.fail ⟨"missing_" ++ k.name, 400⟩ := by
  cases h1 : truthyLookup input.tokens "MEDIUM_TOKEN" with
  | none =>
      refine ⟨?_, ReqKey.tok "MEDIUM_TOKEN", ?_, ?_, ?_⟩ <;>
        simp [mediumPost, reqd, h1, keyMissing, ReqKey.name]
  | some v =>
      cases h2 : truthyLookup input.account "user_id" with
      | none =>
          refine ⟨?_, ReqKey.acct "user_id", ?_, ?_, ?_⟩ <;>
            simp [mediumPost, reqd, h1, h2, keyMissing, ReqKey.name]
      | some w =>
          exfalso
          rcases h with ⟨k, hk, hmiss⟩
          simp only [List.mem_cons, List.not_mem_nil, or_false] at hk
          rcases hk with rfl | rfl <;> simp [keyMissing, h1, h2] at hmiss

theorem telegramPost_missing_key (net : Net) (input : AdapterInput)
    (h : ∃ k ∈ [ReqKey.tok "TELEGRAM_BOT_TOKEN", ReqKey.acct "chat_id"], keyMissing input k = true) :
    (telegramPost net input).calls = [] ∧
      ∃ k ∈ [ReqKey.tok "TELEGRAM_BOT_TOKEN", ReqKey.acct "chat_id"], keyMissing input k = true ∧
        (telegramPost net input).result = PResult.fail ⟨"missing_" ++ k.name, 400⟩ := by
  cases h1 : truthyLookup input.tokens "TELEGRAM_BOT_TOKEN" with
  | none =>
      refine ⟨?_, ReqKey.tok "TELEGRAM_BOT_TOKEN", ?_, ?_, ?_⟩ <;>
        simp [telegramPost, reqd, h1, keyMissing, ReqKey.name]
  | some v =>
      cases h2 : truthyLookup input.account "chat_id" with
      | none =>
          refine ⟨?_, ReqKey.acct "chat_id", ?_, ?_, ?_⟩ <;>
            simp [telegramPost, reqd, h1, h2, keyMissing, ReqKey.name]
      | some w =>
          exfalso
          rcases h with ⟨k, hk, hmiss⟩
          simp only [List.mem_cons, List.not_mem_nil, or_false] at hk
          rcases hk with rfl | rfl <;> simp [keyMissing, h1, h2] at hmiss

theorem linePost_missing_key (net : Net) (input : AdapterInput)
    (h : ∃ k ∈ [ReqKey.tok "LINE_CHANNEL_TOKEN", ReqKey.fldTo], keyMissing input k = true) :
    (linePost net input).calls = [] ∧
      ∃ k ∈ [ReqKey.tok "LINE_CHANNEL_TOKEN", ReqKey.fldTo], keyMissing input k = true ∧
        (linePost net input).result = PResult.fail ⟨"missing_" ++ k.name, 400⟩ := by
  cases h1 : truthyLookup input.tokens "LINE_CHANNEL_TOKEN" with
  | none =>
      refine ⟨?_, ReqKey.tok "LINE_CHANNEL_TOKEN", ?_, ?_, ?_⟩ <;>
        simp [linePost, reqd, h1, keyMissing, ReqKey.name]
  | some v =>
      cases h3 : truthy input.toField with
      | none =>
          refine ⟨?_, ReqKey.fldTo, ?_, ?_, ?_⟩ <;>
            simp [linePost, reqd, reqdField, h1, h3, keyMissing, ReqKey.name]
      | some u =>
          exfalso
          rcases h with ⟨k, hk, hmiss⟩
          simp only [List.mem_cons, List.not_mem_nil, or_false] at hk
          rcases hk with rfl | rfl <;> simp [keyMissing, h1, h3] at hmiss

theorem viberPost_missing_key (net : Net) (input : AdapterInput)
    (h : ∃ k ∈ [ReqKey.tok "VIBER_TOKEN"], keyMissing input k = true) :
    (viberPost net input).calls = [] ∧
      ∃ k ∈ [ReqKey.tok "VIBER_TOKEN"], keyMissing input k = true ∧
        (viberPost net input).result = PResult.fail ⟨"missing_" ++ k.name, 400⟩ := by
  cases h1 : truthyLookup input.tokens "VIBER_TOKEN" with
  | none =>
      refine ⟨?_, ReqKey.tok "VIBER_TOKEN", ?_, ?_, ?_⟩ <;>
        simp [viberPost, reqd, h1, keyMissing, ReqKey.name]
  | some v =>
      exfalso
      rcases h with ⟨k, hk, hmiss⟩
      simp only [List.mem_cons, List.not_mem_nil, or_false] at hk
      rcases hk with rfl
      simp [keyMissing, h1] at hmiss

theorem processJob_not_queued (net : Net) (now : Int) (j : Job)
    (h : ¬ j.status = "QUEUED") : processJob net now j = (j, []) := by
  simp [processJob, h]

theorem processJob_not_due (net : Net) (now : Int) (j : Job)
    (hd : dueAt now j = false) : processJob net now j = (j, []) := by
  by_cases hq : j.status = "QUEUED"
  · simp [processJob, hq, hd]
  · simp [processJob, hq]

theorem processJob_dispatch (net : Net) (now : Int) (j : Job)
    (hq : j.status = "QUEUED") (hd : dueAt now j = true) :
    (processJob net now j).2 =
      Event.setStatus "POSTING" ::
        ((fanOut net (jobPayload j) j.platforms).1.map Event.attempt ++
          [Event.setStatus (processJob net now j).1.status]) ∧
    ((processJob net now j).1.status = "POSTED" ∨ (processJob net now j).1.status = "FAILED") := by
  cases hfo : (fanOut net (jobPayload j) j.platforms).2 <;>
    simp [processJob, hq, hd, hfo]

theorem posting_mem_terminal (net : Net) (now : Int) (j : Job)
    (h : Event.setStatus "POSTING" ∈ (processJob net now j).2) :
    (processJob net now j).1.status = "POSTED" ∨ (processJob net now j).1.status = "FAILED" := by
  by_cases hq : j.status = "QUEUED"
  · by_cases hd : dueAt now j = true
    · exact (processJob_dispatch net now j hq hd).2
    · rw [processJob_not_due net now j (by simpa using hd)] at h
      simp at h
  · rw [processJob_not_queued net now j hq] at h
    simp at h

theorem runTicks_terminal (steps : List (Net × Int)) (j : Job)
    (h : j.status = "POSTED" ∨ j.status = "FAILED") :
    runTicks steps j = (j, List.replicate steps.length []) := by
  induction steps with
  | nil => simp [runTicks]
  | cons s rest ih =>
      have hne : ¬ j.status = "QUEUED" := by
        rcases h with h | h <;> simp [h]
      simp [runTicks, processJob_not_queued _ _ _ hne, ih, List.replicate_succ]

theorem postingEntries_cons (t : List Event) (ts : List (List Event)) :
    postingEntries (t :: ts) =
      (if Event.setStatus "POSTING" ∈ t then 1 else 0) + postingEntries ts := by
  by_cases h : Event.setStatus "POSTING" ∈ t <;>
    simp [postingEntries, h, Nat.add_comm]

theorem postingEntries_replicate (n : Nat) :
    postingEntries (List.replicate n []) = 0 := by
  induction n with
  | zero => rfl
  | succ n ih => rw [List.replicate_succ, postingEntries_cons, ih]; simp

theorem postingEntries_runTicks (steps : List (Net × Int)) (j : Job) :
    postingEntries (runTicks steps j).2 ≤ 1 := by
  induction steps generalizing j with
  | nil => simp [runTicks, postingEntries]
  | cons s rest ih =>
      have hval : (runTicks (s :: rest) j).2 =
          (processJob s.1 s.2 j).2 :: (runTicks rest (processJob s.1 s.2 j).1).2 := rfl
      rw [hval, postingEntries_cons]
      by_cases hmem : Event.setStatus "POSTING" ∈ (processJob s.1 s.2 j).2
      · have hterm := posting_mem_terminal s.1 s.2 j hmem
        rw [runTicks_terminal rest _ hterm]
        simp [hmem, postingEntries_replicate]
      · simp only [hmem, if_neg, Nat.zero_add, if_false]
        exact ih _

theorem decideUpdate_status_iff (r : ApprovalRecord) (i : Nat) (d : Decision) :
    ((decideUpdate r i d).status = "DECIDED" ↔
      (decideUpdate r i d).decisions ≠ [] ∧
      (decideUpdate r i d).decisions.all Option.isSome = true) := by
  have hdec : (decideUpdate r i d).decisions = setSparse r.decisions i d := rfl
  have hst : (decideUpdate r i d).status =
      (if includesUndefined (setSparse r.decisions i d) then "PENDING" else "DECIDED") := rfl
  rw [hdec, hst]
  cases h : includesUndefined (setSparse r.decisions i d)
  · rw [includesUndefined_eq] at h
    simp only [Bool.not_eq_false'] at h
    simp [h, setSparse_ne_nil]
  · rw [includesUndefined_eq] at h
    simp only [Bool.not_eq_true'] at h
    simp [h]

theorem applyDecides_status_iff (r : ApprovalRecord) (ds : List (Nat × Decision))
    (hr : r.status = "DECIDED" ↔ r.decisions ≠ [] ∧ r.decisions.all Option.isSome = true) :
    ((applyDecides r ds).status = "DECIDED" ↔
      (applyDecides r ds).decisions ≠ [] ∧
      (applyDecides r ds).decisions.all Option.isSome = true) := by
  induction ds generalizing r with
  | nil => simpa [applyDecides] using hr
  | cons p rest ih =>
      have hstep : applyDecides r (p :: rest) = applyDecides (decideUpdate r p.1 p.2) rest := by
        simp [applyDecides]
      rw [hstep]
      exact ih _ (decideUpdate_status_iff _ _ _)

/-- C1 counterexample: in a two-item approval record, deciding only index 0
makes the endpoint report and store status DECIDED, although item index 1
has no decision slot — refuting 'status = DECIDED iff every index in items
has a non-empty decisions slot' and the 'N-1 of N decided implies PENDING'
consequence (undecided index = last index). -/
theorem approval_decided_despite_undecided_item :
    approvalDecision (some rec2Items) ⟨0, "APPROVED", none⟩ 1 =
      DecideOut.ok "DECIDED"
        { rec2Items with status := "DECIDED", decisions := [some ⟨"APPROVED", none, 1⟩] } ∧
    rec2Items.items.length = 2 ∧
    ([some (⟨"APPROVED", none, 1⟩ : Decision)].getD 1 none) = none := by
  decide

/-- C1 amended: for any record created by submit and mutated by any sequence
of decision calls, status = DECIDED iff the decisions array is non-empty and
hole-free; the status computation reads only `decisions` (whose length is
driven by the largest decided index), never `items`. -/
theorem approval_status_tracks_decisions_array
    (urlOk : String → Bool) (body : SubmitBody) (id : String) (t : Int)
    (r0 : ApprovalRecord) (ds : List (Nat × Decision))
    (hsub : approvalSubmit urlOk body id t = SubmitOut.ok r0) :
    ((applyDecides r0 ds).status = "DECIDED" ↔
      (applyDecides r0 ds).decisions ≠ [] ∧
      (applyDecides r0 ds).decisions.all Option.isSome = true) := by
  have h0 : r0.status = "DECIDED" ↔
      r0.decisions ≠ [] ∧ r0.decisions.all Option.isSome = true := by
    unfold approvalSubmit at hsub
    by_cases hv : body.items.all (validItem urlOk)
    · rw [if_pos hv] at hsub
      injection hsub with h
      subst h
      simp
    · rw [if_neg hv] at hsub
      cases hsub
  exact applyDecides_status_iff r0 ds h0

/-- C1 witness: concrete instantiation of the amended statement at a
one-item submission followed by one decision at index 0. -/
theorem approval_status_tracks_decisions_array_witness :
    (applyDecides ⟨"appr_w", "PENDING", "generic", [demoItem], [], 0⟩
        [(0, demoDecision)]).status = "DECIDED" := by
  have h := approval_status_tracks_decisions_array urlTrue ⟨[demoItem], none⟩ "appr_w" 0
    ⟨"appr_w", "PENDING", "generic", [demoItem], [], 0⟩ [(0, demoDecision)] (by decide)
  exact h.mpr (by decide)

/-- C3 counterexample: deciding index 5 of a one-item record does not fail
with any IndexOutOfRange error; the endpoint answers ok and the record's
decisions array is extended (with holes) to length 6. -/
theorem decision_index_beyond_items_accepted :
    approvalDecision (some rec1Item) ⟨5, "APPROVED", none⟩ 7 =
      DecideOut.ok "PENDING"
        { rec1Item with
            decisions := [none, none, none, none, none, some ⟨"APPROVED", none, 7⟩] } ∧
    rec1Item.items.length ≤ 5 ∧
    ([none, none, none, none, none, some (⟨"APPROVED", none, 7⟩ : Decision)] :
      List (Option Decision)) ≠ rec1Item.decisions := by
  decide

/-- C3 amended: for any body passing the zod checks (nonnegative integer
index, valid decision value) the decision endpoint never fails regardless of
how `index` compares with `items.length`: it records the decision at that
index and the decisions array grows to `max (old length) (index+1)`. -/
theorem decision_any_valid_index_recorded
    (r : ApprovalRecord) (body : DecisionBody) (now : Int)
    (hidx : 0 ≤ body.index)
    (hdec : body.decision = "APPROVED" ∨ body.decision = "REJECTED") :
    approvalDecision (some r) body now =
      DecideOut.ok (decideUpdate r body.index.toNat ⟨body.decision, body.note, now⟩).status
        (decideUpdate r body.index.toNat ⟨body.decision, body.note, now⟩) ∧
    (decideUpdate r body.index.toNat ⟨body.decision, body.note, now⟩).decisions.length =
      max r.decisions.length (body.index.toNat + 1) := by
  have hcond : 0 ≤ body.index ∧
      (body.decision = "APPROVED" ∨ body.decision = "REJECTED") := ⟨hidx, hdec⟩
  constructor
  · simp only [approvalDecision]
    rw [if_pos hcond]
  · exact setSparse_length _ _ _

/-- C3 witness: concrete instantiation of the amended statement at index 0
of a one-item record. -/
theorem decision_any_valid_index_recorded_witness :
    approvalDecision (some rec1Item) ⟨0, "REJECTED", none⟩ 3 =
      DecideOut.ok (decideUpdate rec1Item 0 ⟨"REJECTED", none, 3⟩).status
        (decideUpdate rec1Item 0 ⟨"REJECTED", none, 3⟩) ∧
    (decideUpdate rec1Item 0 ⟨"REJECTED", none, 3⟩).decisions.length =
      max rec1Item.decisions.length 1 := by
  have h := decision_any_valid_index_recorded rec1Item ⟨0, "REJECTED", none⟩ 3
    (by decide) (by decide)
  exact h

/-- C4 counterexample: submitting an empty items array is accepted and
creates a PENDING record with zero items, instead of failing with a
ValidationError as claimed. -/
theorem submit_empty_items_accepted :
    approvalSubmit urlTrue ⟨[], none⟩ "appr_e" 0 =
      SubmitOut.ok ⟨"appr_e", "PENDING", "generic", [], [], 0⟩ := by
  decide

/-- C4 amended: submit succeeds, creating the PENDING record, iff every
item passes the per-item checks (enum kind, non-empty text, valid media
URLs); the empty items array passes vacuously, and any invalid item yields
the zod 400 response. -/
theorem submit_ok_iff_items_valid
    (urlOk : String → Bool) (body : SubmitBody) (id : String) (t : Int) :
    (approvalSubmit urlOk body id t =
        SubmitOut.ok ⟨id, "PENDING", body.policy.getD "generic", body.items, [], t⟩ ↔
      body.items.all (validItem urlOk) = true) ∧
    (body.items.all (validItem urlOk) = false →
      approvalSubmit urlOk body id t = SubmitOut.badRequest) := by
  constructor
  · constructor
    · intro h
      by_cases hv : body.items.all (validItem urlOk)
      · exact hv
      · unfold approvalSubmit at h
        rw [if_neg hv] at h
        cases h
    · intro hv
      unfold approvalSubmit
      rw [if_pos hv]
  · intro hv
    unfold approvalSubmit
    rw [if_neg (by simp [hv])]

/-- C4 witness: concrete instantiation of the amended statement at a body
whose single item has empty text. -/
theorem submit_ok_iff_items_valid_witness :
    approvalSubmit urlTrue ⟨[⟨"x", "post", "", none⟩], none⟩ "appr_b" 0 =
      SubmitOut.badRequest := by
  exact (submit_ok_iff_items_valid urlTrue ⟨[⟨"x", "post", "", none⟩], none⟩ "appr_b" 0).2
    (by decide)

/-- C2 counterexample: a due queued job fanning out to snapchat then
discord, under an oracle where every external call would succeed, ends
FAILED with snapchat's (first) error message — but discord's adapter call
is never attempted, refuting 'B's adapter call is still attempted before
the job is marked FAILED'. -/
theorem failed_job_skips_second_platform :
    (processJob allSuccessNet 0 snapJob).1.status = "FAILED" ∧
    (processJob allSuccessNet 0 snapJob).1.error =
      some "snapchat_posting_requires_marketing_api_and_creatives" ∧
    Event.attempt "snapchat" ∈ (processJob allSuccessNet 0 snapJob).2 ∧
    Event.attempt "discord" ∉ (processJob allSuccessNet 0 snapJob).2 := by
  decide

/-- C2 amended: for a due queued job with platforms [a, b], if a's adapter
call fails then the job ends FAILED with a's error message and b is not
attempted at all: the per-platform loop sits inside the try block, so the
first thrown error aborts the fan-out. -/
theorem scheduler_fanout_aborts_on_first_failure
    (net : Net) (now : Int) (j : Job) (a b : String) (e : ErrObj)
    (hq : j.status = "QUEUED") (hd : dueAt now j = true)
    (hp : j.platforms = [a, b])
    (hfail : (postToPlatform net (jsToLower a) (jobPayload j)).result = PResult.fail e) :
    processJob net now j =
      ({ j with status := "FAILED", error := some e.message },
       [Event.setStatus "POSTING", Event.attempt a, Event.setStatus "FAILED"]) := by
  have hfan : fanOut net (jobPayload j) j.platforms = ([a], some e) := by
    rw [hp]
    simp [fanOut, hfail]
  simp [processJob, hq, hd, hfan]

/-- C2 witness: concrete instantiation of the amended statement at a
snapchat-then-telegram job under the all-success oracle. -/
theorem scheduler_fanout_aborts_on_first_failure_witness :
    processJob allSuccessNet 0
        { id := "job_w2", platforms := ["snapchat", "telegram"], text := "hi",
          status := "QUEUED" } =
      ({ id := "job_w2", platforms := ["snapchat", "telegram"], text := "hi",
         status := "FAILED",
         error := some "snapchat_posting_requires_marketing_api_and_creatives" },
       [Event.setStatus "POSTING", Event.attempt "snapchat", Event.setStatus "FAILED"]) := by
  exact scheduler_fanout_aborts_on_first_failure allSuccessNet 0 _ "snapchat" "telegram"
    ⟨"snapchat_posting_requires_marketing_api_and_creatives", 501⟩ rfl rfl rfl (by decide)

/-- C5: the platforms whose capability record has post:false are exactly the
ten listed ones, and for each of them the registered adapter fails on every
input with a status-501 error while making no network call. -/
theorem post_false_platforms_always_501 :
    postFalseKeys = ["snapchat", "tumblr", "youtube", "twitch", "clubhouse", "vimeo",
      "quora", "onlyfans", "pornhub", "wechat"] ∧
    ∀ p ∈ postFalseKeys, ∀ (net : Net) (input : AdapterInput),
      (postToPlatform net p input).calls = [] ∧
      ∃ m, (postToPlatform net p input).result = PResult.fail ⟨m, 501⟩ := by
  refine ⟨by decide, ?_⟩
  intro p hp net input
  have hl : postFalseKeys = ["snapchat", "tumblr", "youtube", "twitch", "clubhouse",
      "vimeo", "quora", "onlyfans", "pornhub", "wechat"] := by decide
  rw [hl] at hp
  simp only [List.mem_cons, List.not_mem_nil, or_false] at hp
  rcases hp with rfl | rfl | rfl | rfl | rfl | rfl | rfl | rfl | rfl | rfl <;>
    exact ⟨rfl, _, rfl⟩

/-- C5 witness: the snapchat adapter refuses a concrete input with 501 and
no network call. -/
theorem post_false_platforms_always_501_witness :
    (postToPlatform allSuccessNet "snapchat" { text := some "hi" }).calls = [] ∧
    ∃ m, (postToPlatform allSuccessNet "snapchat" { text := some "hi" }).result =
      PResult.fail ⟨m, 501⟩ := by
  exact post_false_platforms_always_501.2 "snapchat" (by decide) allSuccessNet
    { text := some "hi" }

/-- C6: dispatching to a platform with no registered adapter fails with
the unsupported_platform error, status 404, and performs no network call,
for every input. -/
theorem unknown_platform_404_no_network
    (p : String) (hnone : lookupKey adapters p = none)
    (net : Net) (input : AdapterInput) :
    postToPlatform net p input = ⟨[], PResult.fail ⟨"unsupported_platform", 404⟩⟩ := by
  simp [postToPlatform, hnone]

/-- C6 witness: concrete unknown platform identifier. -/
theorem unknown_platform_404_no_network_witness :
    postToPlatform allSuccessNet "myspace" { text := some "hi" } =
      ⟨[], PResult.fail ⟨"unsupported_platform", 404⟩⟩ :=
  unknown_platform_404_no_network "myspace" rfl allSuccessNet { text := some "hi" }

/-- C7: the tick processes every scheduled job elementwise; one job is
dispatched (produces a non-empty trace) iff its status is QUEUED and it is
due (whenISO absent or at most now); otherwise the tick leaves it exactly
as it was. -/
theorem tick_dispatches_iff_queued_and_due :
    (∀ (net : Net) (now : Int) (jobs : List Job),
      (tick net now jobs).1 = jobs.map (fun j => (processJob net now j).1) ∧
      (tick net now jobs).2 = jobs.map (fun j => (processJob net now j).2)) ∧
    (∀ (net : Net) (now : Int) (j : Job),
      (processJob net now j).2 ≠ [] ↔ (j.status = "QUEUED" ∧ dueAt now j = true)) ∧
    (∀ (net : Net) (now : Int) (j : Job),
      (processJob net now j).2 = [] → processJob net now j = (j, [])) := by
  refine ⟨?_, ?_, ?_⟩
  · intro net now jobs
    induction jobs with
    | nil => simp [tick]
    | cons a rest ih => simp [tick, ih]
  · intro net now j
    constructor
    · intro hne
      by_cases hq : j.status = "QUEUED"
      · by_cases hd : dueAt now j = true
        · exact ⟨hq, hd⟩
        · rw [processJob_not_due net now j (by simpa using hd)] at hne
          simp at hne
      · rw [processJob_not_queued net now j hq] at hne
        simp at hne
    · rintro ⟨hq, hd⟩
      rw [(processJob_dispatch net now j hq hd).1]
      simp
  · intro net now j hempty
    by_cases hq : j.status = "QUEUED"
    · by_cases hd : dueAt now j = true
      · rw [(processJob_dispatch net now j hq hd).1] at hempty
        simp at hempty
      · exact processJob_not_due net now j (by simpa using hd)
    · exact processJob_not_queued net now j hq

/-- C7 witness: a queued job scheduled at 500 is untouched by a tick at
clock 100. -/
theorem tick_dispatches_iff_queued_and_due_witness :
    processJob allSuccessNet 100 futureJob = (futureJob, []) := by
  apply tick_dispatches_iff_queued_and_due.2.2 allSuccessNet 100 futureJob
  decide

/-- C8: for every credentialed adapter and any input missing one of its
declared required keys, dispatch fails with a missing_<key> error of status
400 — the key being the first missing one in check order — and no network
call is attempted. -/
theorem missing_credentials_fail_before_network
    (pk : String × List ReqKey) (hmem : pk ∈ requiredKeys)
    (net : Net) (input : AdapterInput)
    (h : ∃ k ∈ pk.2, keyMissing input k = true) :
    (postToPlatform net pk.1 input).calls = [] ∧
      ∃ k ∈ pk.2, keyMissing input k = true ∧
        (postToPlatform net pk.1 input).result = PResult.fail ⟨"missing_" ++ k.name, 400⟩ := by
  simp only [requiredKeys, List.mem_cons, List.not_mem_nil, or_false] at hmem
  rcases hmem with rfl | rfl | rfl | rfl | rfl | rfl | rfl | rfl | rfl | rfl | rfl | rfl | rfl
  · exact instagramPost_missing_key net input h
  · exact facebookPost_missing_key net input h
  · exact twitterPost_missing_key net input h
  · exact tiktokPost_missing_key net input h
  · exact linkedinPost_missing_key net input h
  · exact pinterestPost_missing_key net input h
  · exact redditPost_missing_key net input h
  · exact whatsappSend_missing_key net input h
  · exact discordPost_missing_key net input h
  · exact mediumPost_missing_key net input h
  · exact telegramPost_missing_key net input h
  · exact linePost_missing_key net input h
  · exact viberPost_missing_key net input h

/-- C8 witness: instagram invoked with no credentials at all fails with
missing_IG_TOKEN, status 400, zero network calls. -/
theorem missing_credentials_fail_before_network_witness :
    (postToPlatform allSuccessNet "instagram" { text := some "hi" }).calls = [] ∧
      ∃ k ∈ [ReqKey.tok "IG_TOKEN", ReqKey.acct "ig_user_id"],
        keyMissing { text := some "hi" } k = true ∧
        (postToPlatform allSuccessNet "instagram" { text := some "hi" }).result =
          PResult.fail ⟨"missing_" ++ k.name, 400⟩ := by
  exact missing_credentials_fail_before_network
    ("instagram", [ReqKey.tok "IG_TOKEN", ReqKey.acct "ig_user_id"]) (by decide)
    allSuccessNet { text := some "hi" }
    ⟨ReqKey.tok "IG_TOKEN", by decide, by decide⟩

/-- C9: the tick never touches a non-QUEUED job; a dispatched job's first
observable step is the POSTING assignment (before any platform attempt) and
it finishes the same tick in POSTED or FAILED; POSTED/FAILED jobs are fixed
points of every later tick; over any sequence of ticks a job enters POSTING
at most once. -/
theorem scheduler_status_discipline :
    (∀ (net : Net) (now : Int) (j : Job), ¬ j.status = "QUEUED" →
      processJob net now j = (j, [])) ∧
    (∀ (net : Net) (now : Int) (j : Job), j.status = "QUEUED" → dueAt now j = true →
      (processJob net now j).2.head? = some (Event.setStatus "POSTING") ∧
      ((processJob net now j).1.status = "POSTED" ∨
        (processJob net now j).1.status = "FAILED")) ∧
    (∀ (steps : List (Net × Int)) (j : Job), j.status = "POSTED" ∨ j.status = "FAILED" →
      runTicks steps j = (j, List.replicate steps.length [])) ∧
    (∀ (steps : List (Net × Int)) (j : Job), postingEntries (runTicks steps j).2 ≤ 1) := by
  refine ⟨processJob_not_queued, ?_, runTicks_terminal, postingEntries_runTicks⟩
  intro net now j hq hd
  refine ⟨?_, (processJob_dispatch net now j hq hd).2⟩
  rw [(processJob_dispatch net now j hq hd).1]
  rfl

/-- C9 witness: a POSTED job is left untouched with an empty trace. -/
theorem scheduler_status_discipline_witness :
    processJob allSuccessNet 0 postedJob = (postedJob, []) := by
  exact scheduler_status_discipline.1 allSuccessNet 0 postedJob (by decide)

/-- C10: the adapter registry and the capability table are keyed by the
same 23 platform identifiers, in the same order; hence a platform has a
registered adapter iff it has a capability record. -/
theorem adapters_capabilities_same_platforms :
    adapters.map Prod.fst = capabilities.map Prod.fst ∧
    adapters.length = 23 ∧ capabilities.length = 23 ∧
    ∀ p : String,
      ((lookupKey adapters p).isSome = true ↔ (lookupKey capabilities p).isSome = true) := by
  refine ⟨rfl, rfl, rfl, ?_⟩
  intro p
  rw [lookupKey_isSome_iff, lookupKey_isSome_iff,
    show adapters.map Prod.fst = capabilities.map Prod.fst from rfl]
